import Mathlib

/-!
Verification of the non-transitive dice game script (`script.js`).

The file gives a shallow embedding of the script: pure helpers become Lean
functions, the mutable `FairRandomGenerator` becomes explicit state passing,
and the interactive `Game.play` loop becomes a step function on an explicit
phase type, consuming one line of user input per step.  JavaScript builtins
that the script calls (`Number`, `parseInt`, `String.split`, hex encoding of
byte buffers, `crypto.randomInt`) are modelled by executable Lean functions:
`Number()` follows the whole numeric-literal string grammar (sign, decimal
digits, fraction, exponent, binary/octal/hexadecimal prefixes, `Infinity`),
producing a value that is an exact rational or an infinity, with `none` for
`NaN`; finite values are kept exact instead of being rounded to binary64,
the same idealisation applied to the probability arithmetic.  Randomness is
passed in
explicitly: a list of candidate draws stands for successive return values of
`crypto.randomInt`, and a byte list stands for a `crypto.randomBytes(32)`
result.  The HMAC primitive is a parameter of every definition that uses it,
since the script delegates it entirely to the `crypto` library.
-/

/-- Characters trimmed by JavaScript string-to-number coercion: the full
ECMAScript WhiteSpace and LineTerminator sets (tab, line feed, vertical
tab, form feed, carriage return, space, no-break space, the Unicode
space-separator category, line separator, paragraph separator, and the
zero-width no-break space). -/
def isJsSpace (c : Char) : Bool :=
  c.toNat = 9 || c.toNat = 10 || c.toNat = 11 || c.toNat = 12 || c.toNat = 13 ||
  c.toNat = 32 || c.toNat = 160 || c.toNat = 0x1680 ||
  (0x2000 ≤ c.toNat && c.toNat ≤ 0x200A) ||
  c.toNat = 0x2028 || c.toNat = 0x2029 || c.toNat = 0x202F || c.toNat = 0x205F ||
  c.toNat = 0x3000 || c.toNat = 0xFEFF

/-- Leading and trailing whitespace removal, as JavaScript trims before
numeric coercion. -/
def trimChars (cs : List Char) : List Char :=
  ((cs.dropWhile isJsSpace).reverse.dropWhile isJsSpace).reverse

/-- Value of a list of decimal digit characters. -/
def digitsToNat (ds : List Char) : Nat :=
  ds.foldl (fun acc c => 10 * acc + (c.toNat - 48)) 0

/-- A JavaScript number as far as `Number()` string coercion can produce
one from a non-`NaN` token: either an exact rational standing for a finite
double, or one of the two infinities (`Number("Infinity")` and
`Number("-Infinity")` are not `NaN`).  Finite values are kept exact rather
than rounded to binary64, the same idealisation used for the probability
arithmetic. -/
inductive JsNum where
  | negInf
  | finite (val : ℚ)
  | posInf
deriving DecidableEq

/-- Numerals denote finite JavaScript numbers. -/
instance (n : Nat) : OfNat JsNum n :=
  OfNat.mk (JsNum.finite (OfNat.ofNat n))

/-- The strict comparison JavaScript applies between two non-`NaN`
numbers: negative infinity below every finite value, every finite value
below positive infinity, rationals compared as usual. -/
def JsNum.ltb : JsNum → JsNum → Bool
  | JsNum.negInf, JsNum.negInf => false
  | JsNum.negInf, JsNum.finite _ => true
  | JsNum.negInf, JsNum.posInf => true
  | JsNum.finite _, JsNum.negInf => false
  | JsNum.finite a, JsNum.finite b => decide (a < b)
  | JsNum.finite _, JsNum.posInf => true
  | JsNum.posInf, _ => false

instance : LT JsNum :=
  LT.mk (fun a b => JsNum.ltb a b = true)

instance (a b : JsNum) : Decidable (a < b) :=
  inferInstanceAs (Decidable (JsNum.ltb a b = true))

/-- Value of a nonempty digit sequence in a radix, `none` when the
sequence is empty or some character is not a digit of that radix. -/
def digitsVal (radix : Nat) (digitVal : Char → Option Nat) (cs : List Char) : Option Nat :=
  if cs.isEmpty then none
  else
    cs.foldl (fun acc c =>
      match acc, digitVal c with
      | some a, some d => some (radix * a + d)
      | _, _ => none) (some 0)

/-- Decimal digit value. -/
def decDigitVal (c : Char) : Option Nat :=
  if c.isDigit then some (c.toNat - 48) else none

/-- Binary digit value. -/
def binDigitVal (c : Char) : Option Nat :=
  if c = '0' then some 0 else if c = '1' then some 1 else none

/-- Octal digit value. -/
def octDigitVal (c : Char) : Option Nat :=
  if '0' ≤ c && c ≤ '7' then some (c.toNat - 48) else none

/-- Hexadecimal digit value, both cases. -/
def hexDigitVal (c : Char) : Option Nat :=
  if c.isDigit then some (c.toNat - 48)
  else if 'a' ≤ c && c ≤ 'f' then some (c.toNat - 87)
  else if 'A' ≤ c && c ≤ 'F' then some (c.toNat - 55)
  else none

/-- The optional exponent part closing a decimal literal: nothing (meaning
exponent 0), or `e`/`E` followed by an optionally signed nonempty digit
sequence that must consume the rest of the token. -/
def parseExponent : List Char → Option Int
  | [] => some 0
  | c :: rest =>
      if c = 'e' || c = 'E' then
        match rest with
        | '+' :: ds => (digitsVal 10 decDigitVal ds).map (fun n => (n : Int))
        | '-' :: ds => (digitsVal 10 decDigitVal ds).map (fun n => -(n : Int))
        | ds => (digitsVal 10 decDigitVal ds).map (fun n => (n : Int))
      else none

/-- Exact value of a signed decimal literal with integer digits `ip`,
fraction digits `fp` and decimal exponent `e`. -/
def decValue (sgn : Int) (ip fp : List Char) (e : Int) : ℚ :=
  let num : Int := sgn * ((digitsToNat ip * 10 ^ fp.length + digitsToNat fp : Nat) : Int)
  if 0 ≤ e then mkRat (num * 10 ^ e.toNat) (10 ^ fp.length)
  else mkRat num (10 ^ fp.length * 10 ^ (-e).toNat)

/-- The ECMAScript StrUnsignedDecimalLiteral after an optional sign:
`Infinity`, or decimal digits with an optional fraction and an optional
exponent, at least one digit in the integer and fraction parts together,
nothing left over. -/
def parseDecCore (sgn : Int) (cs : List Char) : Option JsNum :=
  if cs = ['I', 'n', 'f', 'i', 'n', 'i', 't', 'y'] then
    some (if sgn < 0 then JsNum.negInf else JsNum.posInf)
  else
    let ip := cs.takeWhile Char.isDigit
    let rest1 := cs.dropWhile Char.isDigit
    match rest1 with
    | '.' :: rest2 =>
        let fp := rest2.takeWhile Char.isDigit
        let rest3 := rest2.dropWhile Char.isDigit
        if ip.isEmpty && fp.isEmpty then none
        else
          match parseExponent rest3 with
          | none => none
          | some e => some (JsNum.finite (decValue sgn ip fp e))
    | _ =>
        if ip.isEmpty then none
        else
          match parseExponent rest1 with
          | none => none
          | some e => some (JsNum.finite (decValue sgn ip [] e))

/-- The StrDecimalLiteral: an optional sign followed by an unsigned
decimal literal. -/
def parseSigned (cs : List Char) : Option JsNum :=
  match cs with
  | '+' :: r => parseDecCore 1 r
  | '-' :: r => parseDecCore (-1) r
  | _ => parseDecCore 1 cs

/-- Core of the JavaScript `Number()` string coercion after trimming: the
StrNumericLiteral grammar.  A leading `0b`/`0B`, `0o`/`0O` or `0x`/`0X`
introduces an unsigned binary, octal or hexadecimal integer (no sign
allowed before these forms); everything else is a signed decimal literal
or `Infinity`.  `none` models `NaN`. -/
def jsNumCore (cs : List Char) : Option JsNum :=
  match cs with
  | '0' :: c :: rest =>
      if c = 'b' || c = 'B' then
        (digitsVal 2 binDigitVal rest).map (fun n => JsNum.finite (n : ℚ))
      else if c = 'o' || c = 'O' then
        (digitsVal 8 octDigitVal rest).map (fun n => JsNum.finite (n : ℚ))
      else if c = 'x' || c = 'X' then
        (digitsVal 16 hexDigitVal rest).map (fun n => JsNum.finite (n : ℚ))
      else parseSigned cs
  | _ => parseSigned cs

/-- JavaScript `Number()` coercion of a string: trims whitespace, maps the
empty (or all-whitespace) string to `0`, and otherwise parses the numeric
literal grammar; `none` models `NaN`. -/
def jsNumber (s : String) : Option JsNum :=
  let cs := trimChars s.data
  if cs.isEmpty then some (JsNum.finite 0) else jsNumCore cs

/-- JavaScript `parseInt(s, 10)`: trims, reads an optional sign and then the
longest prefix of decimal digits, ignoring the remainder of the string;
`none` models `NaN` (no digits at all). -/
def jsParseInt (s : String) : Option Int :=
  let cs := trimChars s.data
  let signAndRest : Int × List Char :=
    match cs with
    | '+' :: r => (1, r)
    | '-' :: r => (-1, r)
    | _ => (1, cs)
  let ds := signAndRest.2.takeWhile Char.isDigit
  if ds.isEmpty then none else some (signAndRest.1 * (digitsToNat ds : Int))

/-- Helper for `splitCommas`: accumulates the current token in reverse. -/
def splitCommaAux : List Char → List Char → List String
  | [], acc => [String.mk acc.reverse]
  | ',' :: rest, acc => String.mk acc.reverse :: splitCommaAux rest []
  | c :: rest, acc => splitCommaAux rest (c :: acc)

/-- JavaScript `s.split(",")`; in particular the empty string splits into
the one-element list containing the empty string. -/
def splitCommas (s : String) : List String :=
  splitCommaAux s.data []

/-- Lowercase hexadecimal digit character: the decimal digits for values
below ten, then the lowercase letters from `a`. -/
def hexDigit (n : Nat) : Char :=
  if n < 10 then Char.ofNat (48 + n) else Char.ofNat (97 + (n - 10))

/-- The sixteen lowercase hexadecimal digit characters. -/
def hexDigits : List Char :=
  (List.range 16).map hexDigit

/-- Two-character lowercase hexadecimal rendering of one byte, as produced
by `Buffer.toString("hex")`. -/
def byteToHex (b : Nat) : List Char :=
  [hexDigit (b / 16), hexDigit (b % 16)]

/-- Lowercase hexadecimal rendering of a byte sequence. -/
def bytesToHex (bs : List Nat) : String :=
  String.mk (bs.map byteToHex).flatten

/-- A die: an ordered list of face values, as parsed from one command line
argument (`class Dice`, `script.js` lines 4-12). -/
structure Dice where
  faces : List JsNum
deriving DecidableEq

/-- Coercion of one die specification string into its face list:
`arg.split(",").map(Number)`, rejected (`none`) exactly when some token
coerces to `NaN` (`faces.some(isNaN)` in the source). -/
def parseFaces (arg : String) : Option (List JsNum) :=
  let nums := (splitCommas arg).map jsNumber
  if ∀ x ∈ nums, x.isSome then some (nums.map (fun x => x.getD 0)) else none

/-- Helper for `DiceParser.parseDice`: maps the argument list in order,
failing at the first argument whose token list contains a `NaN`, with the
message of `script.js` lines 25-29 (argument numbering is one-based). -/
def parseDiceAux : Nat → List String → Except String (List Dice)
  | _, [] => Except.ok []
  | i, arg :: rest =>
      match parseFaces arg with
      | none =>
          Except.error ("Invalid dice configuration at argument " ++ toString (i + 1)
            ++ ": Only integers are allowed.")
      | some faces =>
          match parseDiceAux (i + 1) rest with
          | Except.error e => Except.error e
          | Except.ok ds => Except.ok (Dice.mk faces :: ds)

/-- Startup argument parsing (`DiceParser.parseDice`, `script.js` lines
15-33): fewer than three arguments is rejected outright, otherwise each
argument is coerced into a die. -/
def DiceParser.parseDice (args : List String) : Except String (List Dice) :=
  if args.length < 3 then
    Except.error ("You must provide at least three dice configurations. "
      ++ "Example: 2,2,4,4,9,9 6,8,1,1,8,6 7,5,3,7,5,3")
  else parseDiceAux 0 args

/-- Outcome of the top-level startup code (`script.js` lines 310-316): a
parse failure is reported once and no game loop starts, otherwise a game is
constructed over the parsed dice and its loop begins. -/
inductive StartupOutcome where
  | configError (msg : String)
  | gameStarted (dice : List Dice)
deriving DecidableEq

/-- Whether startup ended in the reported-once configuration error. -/
def StartupOutcome.isConfigError : StartupOutcome → Bool
  | .configError _ => true
  | .gameStarted _ => false

/-- The dice of a started game, when the game started. -/
def StartupOutcome.startedDice : StartupOutcome → Option (List Dice)
  | .configError _ => none
  | .gameStarted d => some d

/-- The top-level try/catch of `script.js` lines 310-316. -/
def runStartup (args : List String) : StartupOutcome :=
  match DiceParser.parseDice args with
  | Except.error e => StartupOutcome.configError e
  | Except.ok dice => StartupOutcome.gameStarted dice

/-- State of `class FairRandomGenerator`: its single mutable field
`secretKey`, which the constructor sets to `null` (modelled by `none`). -/
structure FairRandomGenerator where
  secretKey : Option (List Nat)
deriving DecidableEq

/-- A freshly constructed generator (`new FairRandomGenerator()`). -/
def FairRandomGenerator.new : FairRandomGenerator :=
  FairRandomGenerator.mk none

/-- The `generateUniformRandom` do-while loop (`script.js` lines 55-61):
draw `crypto.randomInt(0, max)` and redraw while the draw is at least
`max`.  The list holds the successive `randomInt` return values; `none`
means the supply ran out, which never happens under the `randomInt`
contract that every draw already lies in `[0, max)`. -/
def FairRandomGenerator.generateUniformRandom (draws : List Nat) (max : Nat) : Option Nat :=
  match draws with
  | [] => none
  | d :: rest =>
      if max ≤ d then FairRandomGenerator.generateUniformRandom rest max else some d

/-- The `generateRandom` commit operation (`script.js` lines 41-47):
overwrite `secretKey` with a fresh 32-byte key, draw a uniform value below
`max`, and compute the keyed digest of its decimal rendering
(`generateHMAC`, lines 49-53, hashes `message.toString()`).  The previous
generator state is discarded because `this.secretKey` is unconditionally
reassigned. -/
def FairRandomGenerator.generateRandom (hmacFn : List Nat → String → String)
    (freshKey : List Nat) (draws : List Nat) (max : Nat) (_g : FairRandomGenerator) :
    Option (FairRandomGenerator × Nat × String) :=
  match FairRandomGenerator.generateUniformRandom draws max with
  | none => none
  | some n => some (FairRandomGenerator.mk (some freshKey), n, hmacFn freshKey (toString n))

/-- The `getSecretKey` reveal (`script.js` lines 63-65):
`this.secretKey.toString("hex")`.  When `secretKey` is still `null` the
call fails (a thrown `TypeError`, the `InvalidState` condition of the
specification), modelled by `none`. -/
def FairRandomGenerator.getSecretKey (g : FairRandomGenerator) : Option String :=
  g.secretKey.map bytesToHex

/-- The modular throw resolution of `script.js` lines 237-239 and 284-285:
`(committedValue + c) % range`. -/
def throwResult (committedValue c range : Nat) : Nat :=
  (committedValue + c) % range

/-- The throw resolution as a self-map of `Fin range` in its committed
value, for a fixed counterpart contribution. -/
def throwResultMap (range c : Nat) (h : 0 < range) : Fin range → Fin range :=
  fun v => Fin.mk (throwResult v.1 c range) (Nat.mod_lt _ h)

/-- The throw resolution as a self-map of `Fin range` in the counterpart
contribution, for a fixed committed value. -/
def throwResultMapL (range v : Nat) (h : 0 < range) : Fin range → Fin range :=
  fun c => Fin.mk (throwResult v c.1 range) (Nat.mod_lt _ h)

/-- Strict-win count of the nested loops of
`ProbabilityCalculator.calculateProbability` (`script.js` lines 84-92): for
every face of the first die, count the faces of the second die it strictly
exceeds. -/
def winCount (fs1 fs2 : List JsNum) : Nat :=
  (fs1.map (fun f1 => (fs2.filter (fun f2 => decide (f2 < f1))).length)).sum

/-- Pairwise win probability (`script.js` lines 84-92): strict wins divided
by the number of face pairs compared. -/
def ProbabilityCalculator.calculateProbability (d1 d2 : Dice) : ℚ :=
  (winCount d1.faces d2.faces : ℚ) /
    ((d1.faces.length : ℚ) * (d2.faces.length : ℚ))

/-- The probability matrix (`ProbabilityCalculator.calculate`, `script.js`
lines 69-82): `0.5` on the diagonal by convention, pairwise win
probabilities elsewhere. -/
def ProbabilityCalculator.calculate (dice : List Dice) : List (List ℚ) :=
  (List.range dice.length).map (fun i =>
    (List.range dice.length).map (fun j =>
      if i = j then (1 : ℚ) / 2
      else ProbabilityCalculator.calculateProbability
        (dice.getD i (Dice.mk [])) (dice.getD j (Dice.mk []))))

/-- Cross product of two face lists as ordered pairs, the enumeration the
specification describes for the matchup probability engine. -/
def facePairs (fs1 fs2 : List JsNum) : List (JsNum × JsNum) :=
  fs1.flatMap (fun f1 => fs2.map (fun f2 => (f1, f2)))

/-- Specification-side win count: the number of pairs in the full cross
product whose first component strictly exceeds the second. -/
def specWinCount (fs1 fs2 : List JsNum) : Nat :=
  (facePairs fs1 fs2).countP (fun p => decide (p.2 < p.1))

/-- Phase of the interactive game, one constructor per blocking prompt of
`Game.determineFirstMove` and the `Game.play` while loop, plus the two ways
the loop can end.  Each phase carries the protocol data computed before its
prompt was shown: the outstanding commitment value and digest, the chosen
dice, and the already-resolved computer roll. -/
inductive GamePhase where
  | firstMove (randomNumber : Nat) (hmac : String)
  | chooseDice
  | hostContrib (userDice compDice computerThrow : Nat) (computerHMAC : String)
  | playerContrib (userDice compDice : Nat) (computerRoll : JsNum) (userThrow : Nat)
      (userHMAC : String)
  | exited
  | crashed
deriving DecidableEq

/-- State of the running game: the phase about to prompt, and the mutable
generator owned by the `Game` instance. -/
structure GameState where
  phase : GamePhase
  gen : FairRandomGenerator
deriving DecidableEq

/-- Randomness consumed by one step: a fresh 32-byte key for a possible
`randomBytes` call, and two draw supplies for the up-to-two `randomInt`
call sites reachable before the next prompt. -/
structure StepRand where
  freshKey : List Nat
  draws1 : List Nat
  draws2 : List Nat
deriving DecidableEq

/-- Observable effect of one step, summarising which branch of the source
the input took and what the branch prints. -/
inductive GameOutput where
  | farewell
  | helpTable (probs : List (List ℚ))
  | invalidGuess
  | firstMoveDecided (userFirst : Bool)
  | invalidDice
  | hostCommit (digest : String)
  | invalidNumber
  | playerCommit (digest : String)
  | referenceErrorO
  | noOp
deriving DecidableEq

/-- One step of `Game.determineFirstMove` (`script.js` lines 113-145) from
its prompt: exit on `X`/`x`; on a guess that is not an integer in `{0, 1}`
the function recurses into itself, which performs a brand-new
`generateRandom(2)` commit before prompting again; on a valid guess the
current value and key are revealed and the guess is compared for equality
with the committed value. -/
def Game.stepFirstMove (hmacFn : List Nat → String → String) (g : FairRandomGenerator)
    (v : Nat) (_d : String) (input : String) (r : StepRand) :
    Option (GameState × GameOutput) :=
  if input = "X" ∨ input = "x" then
    some (GameState.mk GamePhase.exited g, GameOutput.farewell)
  else
    match jsParseInt input with
    | some guess =>
        if guess < 0 ∨ 1 < guess then
          match FairRandomGenerator.generateRandom hmacFn r.freshKey r.draws1 2 g with
          | none => none
          | some (g1, n, dg) =>
              some (GameState.mk (GamePhase.firstMove n dg) g1, GameOutput.invalidGuess)
        else
          some (GameState.mk GamePhase.chooseDice g,
            GameOutput.firstMoveDecided (decide (guess = (v : Int))))
    | none =>
        match FairRandomGenerator.generateRandom hmacFn r.freshKey r.draws1 2 g with
        | none => none
        | some (g1, n, dg) =>
            some (GameState.mk (GamePhase.firstMove n dg) g1, GameOutput.invalidGuess)

/-- One step of the `Game.play` loop from the die-choice prompt
(`script.js` lines 158-207): exit on `X`/`x`; on `?` display the
probability table and re-prompt; on an out-of-range or non-numeric index
re-prompt; on a valid index draw the computer die uniformly
(`generateUniformRandom` over the full dice list) and immediately run the
computer commit `generateRandom(faces.length)`, announcing its digest
before the contribution prompt. -/
def Game.stepChooseDice (hmacFn : List Nat → String → String) (dice : List Dice)
    (g : FairRandomGenerator) (input : String) (r : StepRand) :
    Option (GameState × GameOutput) :=
  if input = "X" ∨ input = "x" then
    some (GameState.mk GamePhase.exited g, GameOutput.farewell)
  else if input = "?" then
    some (GameState.mk GamePhase.chooseDice g,
      GameOutput.helpTable (ProbabilityCalculator.calculate dice))
  else
    match jsParseInt input with
    | none => some (GameState.mk GamePhase.chooseDice g, GameOutput.invalidDice)
    | some idx =>
        if idx < 0 ∨ (dice.length : Int) ≤ idx then
          some (GameState.mk GamePhase.chooseDice g, GameOutput.invalidDice)
        else
          match FairRandomGenerator.generateUniformRandom r.draws1 dice.length with
          | none => none
          | some ci =>
              match FairRandomGenerator.generateRandom hmacFn r.freshKey r.draws2
                  (dice.getD ci (Dice.mk [])).faces.length g with
              | none => none
              | some (g1, n, dg) =>
                  some (GameState.mk (GamePhase.hostContrib idx.toNat ci n dg) g1,
                    GameOutput.hostCommit dg)

/-- One step of the `Game.play` loop from the computer-throw contribution
prompt (`script.js` lines 209-254): exit on `X`/`x`; on a non-numeric or
out-of-range contribution the loop prints an error and `continue`s, which
abandons the round and returns to the die-choice prompt; on a valid
contribution the key is revealed, the computer roll is resolved by
`throwResult` and face lookup, and the user commit
`generateRandom(userFaces.length)` runs before the next prompt. -/
def Game.stepHostContrib (hmacFn : List Nat → String → String) (dice : List Dice)
    (g : FairRandomGenerator) (u ci cThrow : Nat) (_cH : String) (input : String)
    (r : StepRand) : Option (GameState × GameOutput) :=
  if input = "X" ∨ input = "x" then
    some (GameState.mk GamePhase.exited g, GameOutput.farewell)
  else
    match jsParseInt input with
    | none => some (GameState.mk GamePhase.chooseDice g, GameOutput.invalidNumber)
    | some n =>
        if n < 0 ∨ ((dice.getD ci (Dice.mk [])).faces.length : Int) ≤ n then
          some (GameState.mk GamePhase.chooseDice g, GameOutput.invalidNumber)
        else
          match FairRandomGenerator.generateRandom hmacFn r.freshKey r.draws1
              (dice.getD u (Dice.mk [])).faces.length g with
          | none => none
          | some (g1, uT, uH) =>
              some (GameState.mk
                (GamePhase.playerContrib u ci
                  ((dice.getD ci (Dice.mk [])).faces.getD
                    (throwResult cThrow n.toNat (dice.getD ci (Dice.mk [])).faces.length) 0)
                  uT uH) g1,
                GameOutput.playerCommit uH)

/-- One step of the `Game.play` loop from the user-throw contribution
prompt (`script.js` lines 256-299): exit on `X`/`x`; on a non-numeric or
out-of-range contribution the loop `continue`s back to the die-choice
prompt; on a valid contribution the source computes `userResult` at lines
284-285 and then, at line 287, applies the undefined identifier `o` to a
template literal, so execution throws a `ReferenceError` before the user
roll lookup, the comparison of lines 293-299 and the outcome printing are
ever reached. -/
def Game.stepPlayerContrib (_hmacFn : List Nat → String → String) (dice : List Dice)
    (g : FairRandomGenerator) (u _ci : Nat) (_cRoll : JsNum) (_uThrow : Nat) (_uH : String)
    (input : String) (_r : StepRand) : Option (GameState × GameOutput) :=
  if input = "X" ∨ input = "x" then
    some (GameState.mk GamePhase.exited g, GameOutput.farewell)
  else
    match jsParseInt input with
    | none => some (GameState.mk GamePhase.chooseDice g, GameOutput.invalidNumber)
    | some n =>
        if n < 0 ∨ ((dice.getD u (Dice.mk [])).faces.length : Int) ≤ n then
          some (GameState.mk GamePhase.chooseDice g, GameOutput.invalidNumber)
        else
          some (GameState.mk GamePhase.crashed g, GameOutput.referenceErrorO)

/-- One step of the whole game: dispatch on the phase about to prompt and
consume one line of user input.  Terminal phases absorb input. -/
def Game.step (hmacFn : List Nat → String → String) (dice : List Dice)
    (st : GameState) (input : String) (r : StepRand) : Option (GameState × GameOutput) :=
  match st.phase with
  | GamePhase.firstMove v d => Game.stepFirstMove hmacFn st.gen v d input r
  | GamePhase.chooseDice => Game.stepChooseDice hmacFn dice st.gen input r
  | GamePhase.hostContrib u ci t h => Game.stepHostContrib hmacFn dice st.gen u ci t h input r
  | GamePhase.playerContrib u ci cr t h =>
      Game.stepPlayerContrib hmacFn dice st.gen u ci cr t h input r
  | GamePhase.exited => some (st, GameOutput.noOp)
  | GamePhase.crashed => some (st, GameOutput.noOp)

/-- Game start (`Game.play` up to its first prompt): a fresh generator is
constructed and `determineFirstMove` performs its `generateRandom(2)`
commit before asking for the guess. -/
def Game.initState (hmacFn : List Nat → String → String) (freshKey draws : List Nat) :
    Option GameState :=
  match FairRandomGenerator.generateRandom hmacFn freshKey draws 2 FairRandomGenerator.new with
  | none => none
  | some (g1, n, d) => some (GameState.mk (GamePhase.firstMove n d) g1)

/-! ## Helper lemmas -/

/-- Any value the redraw loop returns came out of a branch whose guard
checked it below `max`. -/
theorem generateUniformRandom_lt (draws : List Nat) (max n : Nat)
    (h : FairRandomGenerator.generateUniformRandom draws max = some n) : n < max := by
  induction draws with
  | nil => cases h
  | cons d rest ih =>
      unfold FairRandomGenerator.generateUniformRandom at h
      by_cases hd : max ≤ d
      · rw [if_pos hd] at h
        exact ih h
      · rw [if_neg hd] at h
        cases h
        exact Nat.not_le.mp hd

/-- The hexadecimal digit of a value below sixteen is one of the sixteen
lowercase digit characters. -/
theorem hexDigit_mem (n : Nat) (h : n < 16) : hexDigit n ∈ hexDigits :=
  List.mem_map.mpr ⟨n, List.mem_range.mpr h, rfl⟩

/-- Every character of the hex rendering of a byte sequence is a lowercase
hexadecimal digit. -/
theorem bytesToHex_chars (bs : List Nat) (hbs : ∀ b ∈ bs, b < 256) (c : Char)
    (hc : c ∈ (bytesToHex bs).data) : c ∈ hexDigits := by
  have hc' : c ∈ (bs.map byteToHex).flatten := hc
  rcases List.mem_flatten.mp hc' with ⟨l, hl, hcl⟩
  rcases List.mem_map.mp hl with ⟨b, hb, rfl⟩
  unfold byteToHex at hcl
  simp only [List.mem_cons, List.mem_singleton, List.not_mem_nil, or_false] at hcl
  rcases hcl with h | h
  · rw [h]
    have hb256 : b < 16 * 16 := by
      have := hbs b hb
      omega
    exact hexDigit_mem _ (Nat.div_lt_of_lt_mul hb256)
  · rw [h]
    exact hexDigit_mem _ (Nat.mod_lt _ (by omega))

/-! ## Claim theorems -/

/-- C6: for every positive range, the commit draw loop terminates at once
under the `randomInt` contract (any draw already below `max` is returned
unchanged, so the result is the raw range-aware draw, with no modulo
applied), and every value the loop can return lies in `[0, max)`. -/
theorem generateUniformRandom_spec (max d n : Nat) (rest draws : List Nat)
    (hd : d < max) (hn : FairRandomGenerator.generateUniformRandom draws max = some n) :
    FairRandomGenerator.generateUniformRandom (d :: rest) max = some d ∧ n < max := by
  constructor
  · unfold FairRandomGenerator.generateUniformRandom
    rw [if_neg (Nat.not_le.mpr hd)]
  · exact generateUniformRandom_lt draws max n hn

/-- Witness for `generateUniformRandom_spec` at `max = 6`. -/
theorem generateUniformRandom_spec_witness :
    FairRandomGenerator.generateUniformRandom [2] 6 = some 2 ∧ 4 < 6 :=
  generateUniformRandom_spec 6 2 4 [] [4] (by decide) (by decide)

/-- C7: every commitment produced by `generateRandom` satisfies the digest
invariant: the digest is the keyed hash of the decimal rendering of the
committed value, under the key generated fresh in the same call, and that
key is exactly the one the generator stores for the later reveal; the
committed value lies in `[0, max)`. -/
theorem generateRandom_digest_invariant (hmacFn : List Nat → String → String)
    (freshKey draws : List Nat) (max : Nat) (g g1 : FairRandomGenerator) (n : Nat)
    (dg : String)
    (h : FairRandomGenerator.generateRandom hmacFn freshKey draws max g = some (g1, n, dg)) :
    dg = hmacFn freshKey (toString n) ∧ g1.secretKey = some freshKey ∧ n < max := by
  unfold FairRandomGenerator.generateRandom at h
  cases hu : FairRandomGenerator.generateUniformRandom draws max with
  | none =>
      rw [hu] at h
      cases h
  | some m =>
      rw [hu] at h
      simp only [Option.some.injEq, Prod.mk.injEq] at h
      obtain ⟨hg, hn, hd⟩ := h
      rw [hn] at hd hu
      refine ⟨hd.symm, ?_, generateUniformRandom_lt draws max n hu⟩
      rw [← hg]

/-- Witness for `generateRandom_digest_invariant` on a concrete commit. -/
theorem generateRandom_digest_invariant_witness :
    "3" = (fun (_ : List Nat) (m : String) => m) [9] (toString 3) ∧
    (FairRandomGenerator.mk (some [9])).secretKey = some [9] ∧ 3 < 6 :=
  generateRandom_digest_invariant (fun _ m => m) [9] [3] 6 FairRandomGenerator.new
    (FairRandomGenerator.mk (some [9])) 3 "3" (by decide)

/-- C5: the reveal on a freshly constructed generator fails (the stored key
is still `null`, the `InvalidState` condition), while after a commit the
reveal returns exactly the key generated by that commit, rendered in
lowercase hexadecimal. -/
theorem getSecretKey_spec (hmacFn : List Nat → String → String)
    (freshKey draws : List Nat) (max : Nat) (g g1 : FairRandomGenerator) (n : Nat)
    (dg : String) (c : Char)
    (hcommit : FairRandomGenerator.generateRandom hmacFn freshKey draws max g
      = some (g1, n, dg))
    (hkey : ∀ b ∈ freshKey, b < 256)
    (hc : c ∈ (bytesToHex freshKey).data) :
    FairRandomGenerator.new.getSecretKey = none ∧
    g1.getSecretKey = some (bytesToHex freshKey) ∧ c ∈ hexDigits := by
  refine ⟨rfl, ?_, bytesToHex_chars freshKey hkey c hc⟩
  unfold FairRandomGenerator.generateRandom at hcommit
  cases hu : FairRandomGenerator.generateUniformRandom draws max with
  | none =>
      rw [hu] at hcommit
      cases hcommit
  | some m =>
      rw [hu] at hcommit
      simp only [Option.some.injEq, Prod.mk.injEq] at hcommit
      obtain ⟨hg, _, _⟩ := hcommit
      rw [← hg]
      rfl

/-- Witness for `getSecretKey_spec` on a concrete commit with key bytes
`[0, 255]`, whose rendering is the lowercase `00ff`. -/
theorem getSecretKey_spec_witness :
    FairRandomGenerator.new.getSecretKey = none ∧
    (FairRandomGenerator.mk (some [0, 255])).getSecretKey = some (bytesToHex [0, 255]) ∧
    'f' ∈ hexDigits :=
  getSecretKey_spec (fun _ m => m) [0, 255] [1] 2 FairRandomGenerator.new
    (FairRandomGenerator.mk (some [0, 255])) 1 "1" 'f' (by decide) (by decide) (by decide)

/-- C2: for every positive range the throw resolution
`(committedValue + c) % range` is, for a fixed in-range contribution `c`, a
bijection of `[0, range)` onto itself in the committed value, and for a
fixed in-range committed value a bijection in the contribution — so a
uniform distribution on either addend pushes forward to a uniform result
whatever the distribution of the other addend. -/
theorem throwResult_uniformity (range c v : Nat) (h : 0 < range)
    (hc : c < range) (hv : v < range) :
    Function.Bijective (throwResultMap range c h) ∧
    Function.Bijective (throwResultMapL range v h) := by
  haveI : NeZero range := ⟨h.ne'⟩
  constructor
  · have hmap : throwResultMap range c h = fun w => w + Fin.mk c hc := by
      funext w
      apply Fin.ext
      simp [throwResultMap, throwResult, Fin.val_add]
    rw [hmap]
    exact (Equiv.addRight (Fin.mk c hc)).bijective
  · have hmap : throwResultMapL range v h = fun w => Fin.mk v hv + w := by
      funext w
      apply Fin.ext
      simp [throwResultMapL, throwResult, Fin.val_add]
    rw [hmap]
    exact (Equiv.addLeft (Fin.mk v hv)).bijective

/-- Witness for `throwResult_uniformity` at range 6. -/
theorem throwResult_uniformity_witness :
    Function.Bijective (throwResultMap 6 2 (by decide)) ∧
    Function.Bijective (throwResultMapL 6 3 (by decide)) :=
  throwResult_uniformity 6 2 3 (by decide) (by decide) (by decide)

/-- The nested-loop win count of the source equals the cross-product win
count of the specification. -/
theorem winCount_eq_specWinCount (fs1 fs2 : List JsNum) :
    winCount fs1 fs2 = specWinCount fs1 fs2 := by
  induction fs1 with
  | nil => rfl
  | cons a l ih =>
      unfold winCount specWinCount facePairs at ih ⊢
      simp only [List.map_cons, List.sum_cons, List.flatMap_cons, List.countP_append]
      rw [List.countP_map, ih]
      congr 1
      rw [List.countP_eq_length_filter]
      rfl

/-- Entry of a mapped range list. -/
theorem getD_map_range {α : Type} (n i : Nat) (f : Nat → α) (d : α) (h : i < n) :
    ((List.range n).map f).getD i d = f i := by
  rw [List.getD_eq_getElem?_getD, List.getElem?_map, List.getElem?_range h]
  rfl

/-- C9: the probability matrix is square with side the number of dice,
every diagonal entry is the conventional one half, and every off-diagonal
entry is the number of strictly winning face pairs in the full cross
product divided by the number of pairs compared; ties count for neither
side. -/
theorem calculate_matrix_spec (dice : List Dice) (i j : Nat)
    (hi : i < dice.length) (hj : j < dice.length) :
    (ProbabilityCalculator.calculate dice).length = dice.length ∧
    ((ProbabilityCalculator.calculate dice).getD i []).length = dice.length ∧
    (i = j → ((ProbabilityCalculator.calculate dice).getD i []).getD j 0 = 1 / 2) ∧
    (i ≠ j → ((ProbabilityCalculator.calculate dice).getD i []).getD j 0 =
      (specWinCount (dice.getD i (Dice.mk [])).faces (dice.getD j (Dice.mk [])).faces : ℚ) /
        (((dice.getD i (Dice.mk [])).faces.length : ℚ) *
          ((dice.getD j (Dice.mk [])).faces.length : ℚ))) := by
  unfold ProbabilityCalculator.calculate
  refine ⟨by rw [List.length_map, List.length_range], ?_, ?_, ?_⟩
  · rw [getD_map_range _ _ _ _ hi, List.length_map, List.length_range]
  · intro hij
    rw [getD_map_range _ _ _ _ hi, getD_map_range _ _ _ _ hj, if_pos hij]
  · intro hij
    rw [getD_map_range _ _ _ _ hi, getD_map_range _ _ _ _ hj, if_neg hij]
    unfold ProbabilityCalculator.calculateProbability
    rw [winCount_eq_specWinCount]

/-- Witness for `calculate_matrix_spec` on the classical non-transitive
dice of the specification, at entry (0, 1). -/
theorem calculate_matrix_spec_witness :
    (ProbabilityCalculator.calculate
      [Dice.mk [2, 2, 4, 4, 9, 9], Dice.mk [6, 8, 1, 1, 8, 6],
        Dice.mk [7, 5, 3, 7, 5, 3]]).length = 3 ∧
    ((ProbabilityCalculator.calculate
      [Dice.mk [2, 2, 4, 4, 9, 9], Dice.mk [6, 8, 1, 1, 8, 6],
        Dice.mk [7, 5, 3, 7, 5, 3]]).getD 0 []).length = 3 ∧
    ((0 : Nat) = 1 → ((ProbabilityCalculator.calculate
      [Dice.mk [2, 2, 4, 4, 9, 9], Dice.mk [6, 8, 1, 1, 8, 6],
        Dice.mk [7, 5, 3, 7, 5, 3]]).getD 0 []).getD 1 0 = 1 / 2) ∧
    ((0 : Nat) ≠ 1 → ((ProbabilityCalculator.calculate
      [Dice.mk [2, 2, 4, 4, 9, 9], Dice.mk [6, 8, 1, 1, 8, 6],
        Dice.mk [7, 5, 3, 7, 5, 3]]).getD 0 []).getD 1 0 =
      (specWinCount [2, 2, 4, 4, 9, 9] [6, 8, 1, 1, 8, 6] : ℚ) / ((6 : ℚ) * (6 : ℚ))) :=
  calculate_matrix_spec
    [Dice.mk [2, 2, 4, 4, 9, 9], Dice.mk [6, 8, 1, 1, 8, 6], Dice.mk [7, 5, 3, 7, 5, 3]]
    0 1 (by decide) (by decide)

/-- A first-move guess that is not an integer in `{0, 1}` sends
`determineFirstMove` into its recursive re-ask, whose first action is a
brand-new `generateRandom(2)` commit from the fresh randomness of this
step. -/
theorem stepFirstMove_retry (hmacFn : List Nat → String → String)
    (g : FairRandomGenerator) (v : Nat) (d input : String) (k tl d2 : List Nat) (dr : Nat)
    (hX : input ≠ "X") (hx : input ≠ "x")
    (hbad : jsParseInt input = none ∨
      ∃ n, jsParseInt input = some n ∧ (n < 0 ∨ 1 < n))
    (hdr : dr < 2) :
    Game.stepFirstMove hmacFn g v d input (StepRand.mk k (dr :: tl) d2) =
      some (GameState.mk (GamePhase.firstMove dr (hmacFn k (toString dr)))
        (FairRandomGenerator.mk (some k)), GameOutput.invalidGuess) := by
  have hexit : ¬(input = "X" ∨ input = "x") := fun hor => hor.elim hX hx
  rcases hbad with hb | ⟨n, hn, hcond⟩
  · simp only [Game.stepFirstMove, if_neg hexit, hb,
      FairRandomGenerator.generateRandom, FairRandomGenerator.generateUniformRandom,
      if_neg (Nat.not_le.mpr hdr)]
  · simp only [Game.stepFirstMove, if_neg hexit, hn, if_pos hcond,
      FairRandomGenerator.generateRandom, FairRandomGenerator.generateUniformRandom,
      if_neg (Nat.not_le.mpr hdr)]

/-- A non-numeric or out-of-range contribution at the computer-throw prompt
takes the `continue` branch: back to the die-choice prompt, generator left
as it is. -/
theorem stepHostContrib_invalid (hmacFn : List Nat → String → String) (dice : List Dice)
    (g : FairRandomGenerator) (u ci t : Nat) (cH input : String) (r : StepRand)
    (hX : input ≠ "X") (hx : input ≠ "x")
    (hbad : jsParseInt input = none ∨
      ∃ n, jsParseInt input = some n ∧
        (n < 0 ∨ ((dice.getD ci (Dice.mk [])).faces.length : Int) ≤ n)) :
    Game.stepHostContrib hmacFn dice g u ci t cH input r =
      some (GameState.mk GamePhase.chooseDice g, GameOutput.invalidNumber) := by
  have hexit : ¬(input = "X" ∨ input = "x") := fun hor => hor.elim hX hx
  rcases hbad with hb | ⟨n, hn, hcond⟩
  · simp only [Game.stepHostContrib, if_neg hexit, hb]
  · simp only [Game.stepHostContrib, if_neg hexit, hn, if_pos hcond]

/-- A non-numeric or out-of-range contribution at the user-throw prompt
takes the `continue` branch: back to the die-choice prompt, generator left
as it is. -/
theorem stepPlayerContrib_invalid (hmacFn : List Nat → String → String) (dice : List Dice)
    (g : FairRandomGenerator) (u ci : Nat) (cr : JsNum) (t : Nat) (uH input : String)
    (r : StepRand) (hX : input ≠ "X") (hx : input ≠ "x")
    (hbad : jsParseInt input = none ∨
      ∃ n, jsParseInt input = some n ∧
        (n < 0 ∨ ((dice.getD u (Dice.mk [])).faces.length : Int) ≤ n)) :
    Game.stepPlayerContrib hmacFn dice g u ci cr t uH input r =
      some (GameState.mk GamePhase.chooseDice g, GameOutput.invalidNumber) := by
  have hexit : ¬(input = "X" ∨ input = "x") := fun hor => hor.elim hX hx
  rcases hbad with hb | ⟨n, hn, hcond⟩
  · simp only [Game.stepPlayerContrib, if_neg hexit, hb]
  · simp only [Game.stepPlayerContrib, if_neg hexit, hn, if_pos hcond]

/-- A valid contribution at the user-throw prompt runs into the undefined
identifier at `script.js` line 287: the step ends in the crashed phase. -/
theorem stepPlayerContrib_crash (hmacFn : List Nat → String → String) (dice : List Dice)
    (g : FairRandomGenerator) (u ci : Nat) (cr : JsNum) (t : Nat) (uH input : String)
    (r : StepRand) (n : Int) (hX : input ≠ "X") (hx : input ≠ "x")
    (hn : jsParseInt input = some n)
    (hok : ¬(n < 0 ∨ ((dice.getD u (Dice.mk [])).faces.length : Int) ≤ n)) :
    Game.stepPlayerContrib hmacFn dice g u ci cr t uH input r =
      some (GameState.mk GamePhase.crashed g, GameOutput.referenceErrorO) := by
  have hexit : ¬(input = "X" ∨ input = "x") := fun hor => hor.elim hX hx
  simp only [Game.stepPlayerContrib, if_neg hexit, hn, if_neg hok]

/-- C10: the `?` input, although advertised at every prompt, only shows the
probability table at the die-choice prompt.  At the first-move prompt it is
treated as an invalid guess (triggering the re-ask with a fresh commit);
at either modular-contribution prompt it is treated as an invalid number
and abandons the round back to the die-choice prompt. -/
theorem question_mark_handling (hmacFn : List Nat → String → String) (dice : List Dice)
    (g : FairRandomGenerator) (v : Nat) (d : String) (k tl d2 : List Nat) (dr : Nat)
    (u ci t : Nat) (cH : String) (u2 ci2 : Nat) (cr : JsNum) (t2 : Nat) (uH : String)
    (r : StepRand) (hdr : dr < 2) :
    Game.step hmacFn dice (GameState.mk (GamePhase.firstMove v d) g) "?"
        (StepRand.mk k (dr :: tl) d2) =
      some (GameState.mk (GamePhase.firstMove dr (hmacFn k (toString dr)))
        (FairRandomGenerator.mk (some k)), GameOutput.invalidGuess) ∧
    Game.step hmacFn dice (GameState.mk (GamePhase.hostContrib u ci t cH) g) "?" r =
      some (GameState.mk GamePhase.chooseDice g, GameOutput.invalidNumber) ∧
    Game.step hmacFn dice (GameState.mk (GamePhase.playerContrib u2 ci2 cr t2 uH) g) "?" r =
      some (GameState.mk GamePhase.chooseDice g, GameOutput.invalidNumber) ∧
    Game.step hmacFn dice (GameState.mk GamePhase.chooseDice g) "?" r =
      some (GameState.mk GamePhase.chooseDice g,
        GameOutput.helpTable (ProbabilityCalculator.calculate dice)) := by
  refine ⟨?_, ?_, ?_, ?_⟩
  · exact stepFirstMove_retry hmacFn g v d "?" k tl d2 dr (by decide) (by decide)
      (Or.inl (by decide)) hdr
  · exact stepHostContrib_invalid hmacFn dice g u ci t cH "?" r (by decide) (by decide)
      (Or.inl (by decide))
  · exact stepPlayerContrib_invalid hmacFn dice g u2 ci2 cr t2 uH "?" r (by decide)
      (by decide) (Or.inl (by decide))
  · simp only [Game.step, Game.stepChooseDice, if_neg (by decide : ¬("?" = "X" ∨ "?" = "x")),
      if_pos (rfl : ("?" : String) = "?"), if_pos trivial, if_true]

/-- Witness for `question_mark_handling` at concrete state data. -/
theorem question_mark_handling_witness :
    Game.step (fun _ m => m) [Dice.mk [1, 2]]
        (GameState.mk (GamePhase.firstMove 0 "0") (FairRandomGenerator.mk (some [5]))) "?"
        (StepRand.mk [6] [1] []) =
      some (GameState.mk (GamePhase.firstMove 1 ((fun (_ : List Nat) (m : String) => m) [6]
        (toString 1))) (FairRandomGenerator.mk (some [6])), GameOutput.invalidGuess) ∧
    Game.step (fun _ m => m) [Dice.mk [1, 2]]
        (GameState.mk (GamePhase.hostContrib 0 0 1 "1") (FairRandomGenerator.mk (some [5])))
        "?" (StepRand.mk [6] [1] []) =
      some (GameState.mk GamePhase.chooseDice (FairRandomGenerator.mk (some [5])),
        GameOutput.invalidNumber) ∧
    Game.step (fun _ m => m) [Dice.mk [1, 2]]
        (GameState.mk (GamePhase.playerContrib 0 0 1 1 "1")
          (FairRandomGenerator.mk (some [5]))) "?" (StepRand.mk [6] [1] []) =
      some (GameState.mk GamePhase.chooseDice (FairRandomGenerator.mk (some [5])),
        GameOutput.invalidNumber) ∧
    Game.step (fun _ m => m) [Dice.mk [1, 2]]
        (GameState.mk GamePhase.chooseDice (FairRandomGenerator.mk (some [5]))) "?"
        (StepRand.mk [6] [1] []) =
      some (GameState.mk GamePhase.chooseDice (FairRandomGenerator.mk (some [5])),
        GameOutput.helpTable (ProbabilityCalculator.calculate [Dice.mk [1, 2]])) :=
  question_mark_handling (fun _ m => m) [Dice.mk [1, 2]] (FairRandomGenerator.mk (some [5]))
    0 "0" [6] [] [] 1 0 0 1 "1" 0 0 1 1 "1" (StepRand.mk [6] [1] []) (by decide)

/-- C3 counterexample: at the computer-throw contribution prompt, an
invalid contribution does not re-prompt the same state; the step lands on
the die-choice phase, a different phase from the one holding the
outstanding commitment, whose value and digest appear nowhere in the
result. -/
theorem invalid_contribution_not_same_state_cex :
    Game.step (fun _ m => m)
        [Dice.mk [1, 1, 1, 1, 1, 1], Dice.mk [0, 0, 0, 0, 0, 0], Dice.mk [2, 2, 2, 2, 2, 2]]
        (GameState.mk (GamePhase.hostContrib 2 0 3 "3") (FairRandomGenerator.mk (some [7])))
        "abc" (StepRand.mk [] [] []) =
      some (GameState.mk GamePhase.chooseDice (FairRandomGenerator.mk (some [7])),
        GameOutput.invalidNumber) ∧
    GamePhase.chooseDice ≠ GamePhase.hostContrib 2 0 3 "3" := by decide

/-- C3 as amended: at either modular-contribution prompt, an invalid
contribution (non-numeric, negative, or at least the face count) abandons
the round: the loop `continue`s back to the die-choice prompt, the
outstanding commitment and the chosen dice are discarded, and only the
generator field survives. -/
theorem invalid_contribution_returns_to_chooseDice (hmacFn : List Nat → String → String)
    (dice : List Dice) (g : FairRandomGenerator) (u ci t : Nat) (cH : String)
    (u2 ci2 : Nat) (cr : JsNum) (t2 : Nat) (uH : String) (input : String) (r : StepRand)
    (hX : input ≠ "X") (hx : input ≠ "x")
    (hbad1 : jsParseInt input = none ∨
      ∃ n, jsParseInt input = some n ∧
        (n < 0 ∨ ((dice.getD ci (Dice.mk [])).faces.length : Int) ≤ n))
    (hbad2 : jsParseInt input = none ∨
      ∃ n, jsParseInt input = some n ∧
        (n < 0 ∨ ((dice.getD u2 (Dice.mk [])).faces.length : Int) ≤ n)) :
    Game.step hmacFn dice (GameState.mk (GamePhase.hostContrib u ci t cH) g) input r =
      some (GameState.mk GamePhase.chooseDice g, GameOutput.invalidNumber) ∧
    Game.step hmacFn dice (GameState.mk (GamePhase.playerContrib u2 ci2 cr t2 uH) g)
        input r =
      some (GameState.mk GamePhase.chooseDice g, GameOutput.invalidNumber) :=
  ⟨stepHostContrib_invalid hmacFn dice g u ci t cH input r hX hx hbad1,
    stepPlayerContrib_invalid hmacFn dice g u2 ci2 cr t2 uH input r hX hx hbad2⟩

/-- Witness for `invalid_contribution_returns_to_chooseDice` on the input
`abc`. -/
theorem invalid_contribution_returns_to_chooseDice_witness :
    Game.step (fun _ m => m) [Dice.mk [1, 2]]
        (GameState.mk (GamePhase.hostContrib 0 0 1 "1") (FairRandomGenerator.mk (some [5])))
        "abc" (StepRand.mk [] [] []) =
      some (GameState.mk GamePhase.chooseDice (FairRandomGenerator.mk (some [5])),
        GameOutput.invalidNumber) ∧
    Game.step (fun _ m => m) [Dice.mk [1, 2]]
        (GameState.mk (GamePhase.playerContrib 0 0 1 1 "1")
          (FairRandomGenerator.mk (some [5]))) "abc" (StepRand.mk [] [] []) =
      some (GameState.mk GamePhase.chooseDice (FairRandomGenerator.mk (some [5])),
        GameOutput.invalidNumber) :=
  invalid_contribution_returns_to_chooseDice (fun _ m => m) [Dice.mk [1, 2]]
    (FairRandomGenerator.mk (some [5])) 0 0 1 "1" 0 0 1 1 "1" "abc" (StepRand.mk [] [] [])
    (by decide) (by decide) (Or.inl (by decide)) (Or.inl (by decide))

/-- C4 counterexample: starting from the outstanding first-move commitment
with value 0 and digest rendered as the string 0, the invalid guess `abc`
leads to a re-ask whose presented commitment has value 1 and digest 1 —
a new commit was performed, and neither the committed value nor the digest
is identical to the one presented before the re-ask. -/
theorem invalid_guess_not_same_commitment_cex :
    Game.initState (fun _ m => m) [1] [0] =
      some (GameState.mk (GamePhase.firstMove 0 "0") (FairRandomGenerator.mk (some [1]))) ∧
    Game.step (fun _ m => m) [] (GameState.mk (GamePhase.firstMove 0 "0")
        (FairRandomGenerator.mk (some [1]))) "abc" (StepRand.mk [2] [1] []) =
      some (GameState.mk (GamePhase.firstMove 1 "1") (FairRandomGenerator.mk (some [2])),
        GameOutput.invalidGuess) ∧
    ((1 : Nat) ≠ 0 ∧ ("1" : String) ≠ "0") := by decide

/-- C4 as amended: an invalid first-move guess re-asks by re-running the
whole sub-protocol, so a fresh `generateRandom(2)` commit happens first:
the commitment presented after the re-ask is built from the new key and
the new draw of this step, and it replaces the outstanding one, which is
discarded unrevealed. -/
theorem invalid_guess_recommits (hmacFn : List Nat → String → String) (dice : List Dice)
    (g : FairRandomGenerator) (v : Nat) (d input : String) (k tl d2 : List Nat) (dr : Nat)
    (hX : input ≠ "X") (hx : input ≠ "x")
    (hbad : jsParseInt input = none ∨
      ∃ n, jsParseInt input = some n ∧ (n < 0 ∨ 1 < n))
    (hdr : dr < 2) :
    Game.step hmacFn dice (GameState.mk (GamePhase.firstMove v d) g) input
        (StepRand.mk k (dr :: tl) d2) =
      some (GameState.mk (GamePhase.firstMove dr (hmacFn k (toString dr)))
        (FairRandomGenerator.mk (some k)), GameOutput.invalidGuess) :=
  stepFirstMove_retry hmacFn g v d input k tl d2 dr hX hx hbad hdr

/-- Witness for `invalid_guess_recommits` on the out-of-range guess 7. -/
theorem invalid_guess_recommits_witness :
    Game.step (fun _ m => m) [] (GameState.mk (GamePhase.firstMove 0 "0")
        (FairRandomGenerator.mk (some [1]))) "7" (StepRand.mk [2] [1] []) =
      some (GameState.mk (GamePhase.firstMove 1 ((fun (_ : List Nat) (m : String) => m) [2]
        (toString 1))) (FairRandomGenerator.mk (some [2])), GameOutput.invalidGuess) :=
  invalid_guess_recommits (fun _ m => m) [] (FairRandomGenerator.mk (some [1])) 0 "0" "7"
    [2] [] [] 1 (by decide) (by decide) (Or.inr ⟨7, by decide, Or.inr (by decide)⟩)
    (by decide)

/-- C1: every round that reaches the user-throw contribution prompt with a
valid contribution crashes there: `script.js` line 287 applies the
undefined identifier `o` to a template literal, so a `ReferenceError` is
thrown before the user roll lookup, the comparison and the outcome
printing, and the loop never returns to the die-choice prompt. -/
theorem playerThrow_reference_error (hmacFn : List Nat → String → String)
    (dice : List Dice) (g : FairRandomGenerator) (u ci : Nat) (cr : JsNum) (t : Nat)
    (uH input : String) (r : StepRand) (n : Int)
    (hX : input ≠ "X") (hx : input ≠ "x") (hn : jsParseInt input = some n)
    (hok : ¬(n < 0 ∨ ((dice.getD u (Dice.mk [])).faces.length : Int) ≤ n)) :
    Game.step hmacFn dice (GameState.mk (GamePhase.playerContrib u ci cr t uH) g)
        input r =
      some (GameState.mk GamePhase.crashed g, GameOutput.referenceErrorO) :=
  stepPlayerContrib_crash hmacFn dice g u ci cr t uH input r n hX hx hn hok

/-- Witness for `playerThrow_reference_error` on the deterministic scenario
dice of the specification: the user plays die 3 (all faces 2) against die 1
(all faces 1); on any valid contribution, here 4, the step crashes instead
of comparing the throws. -/
theorem playerThrow_reference_error_witness :
    Game.step (fun _ m => m)
        [Dice.mk [1, 1, 1, 1, 1, 1], Dice.mk [0, 0, 0, 0, 0, 0], Dice.mk [2, 2, 2, 2, 2, 2]]
        (GameState.mk (GamePhase.playerContrib 2 0 1 3 "3")
          (FairRandomGenerator.mk (some [7]))) "4" (StepRand.mk [] [] []) =
      some (GameState.mk GamePhase.crashed (FairRandomGenerator.mk (some [7])),
        GameOutput.referenceErrorO) :=
  playerThrow_reference_error (fun _ m => m)
    [Dice.mk [1, 1, 1, 1, 1, 1], Dice.mk [0, 0, 0, 0, 0, 0], Dice.mk [2, 2, 2, 2, 2, 2]]
    (FairRandomGenerator.mk (some [7])) 2 0 1 3 "3" "4" (StepRand.mk [] [] []) 4
    (by decide) (by decide) (by decide) (by decide)

/-- A die specification containing a token that coerces to `NaN` is
rejected by the face parser. -/
theorem parseFaces_eq_none_of_bad (arg tok : String) (htok : tok ∈ splitCommas arg)
    (hnan : jsNumber tok = none) : parseFaces arg = none := by
  have hnot : ¬ ∀ x ∈ (splitCommas arg).map jsNumber, x.isSome := by
    intro hall
    have hmem : jsNumber tok ∈ (splitCommas arg).map jsNumber :=
      List.mem_map_of_mem jsNumber htok
    have hs := hall _ hmem
    rw [hnan] at hs
    exact absurd hs (by decide)
  simp only [parseFaces]
  rw [if_neg hnot]

/-- A die specification all of whose tokens coerce to numbers parses into
the list of those numbers. -/
theorem parseFaces_eq_some_of_good (arg : String)
    (hgood : ∀ tok ∈ splitCommas arg, (jsNumber tok).isSome) :
    parseFaces arg = some (((splitCommas arg).map jsNumber).map (fun x => x.getD 0)) := by
  have hall : ∀ x ∈ (splitCommas arg).map jsNumber, x.isSome := by
    intro x hx
    rcases List.mem_map.mp hx with ⟨tok, htok, rfl⟩
    exact hgood tok htok
  simp only [parseFaces]
  rw [if_pos hall]

/-- If any argument holds a `NaN` token, the argument mapping throws. -/
theorem parseDiceAux_error (i : Nat) (args : List String) (arg tok : String)
    (harg : arg ∈ args) (htok : tok ∈ splitCommas arg) (hnan : jsNumber tok = none) :
    ∃ msg, parseDiceAux i args = Except.error msg := by
  induction args generalizing i with
  | nil => cases harg
  | cons a rest ih =>
      rcases List.mem_cons.mp harg with rfl | hmem
      · unfold parseDiceAux
        rw [parseFaces_eq_none_of_bad arg tok htok hnan]
        exact ⟨_, rfl⟩
      · cases hpf : parseFaces a with
        | none =>
            unfold parseDiceAux
            rw [hpf]
            exact ⟨_, rfl⟩
        | some faces =>
            rcases ih (i + 1) hmem with ⟨msg, hmsg⟩
            refine ⟨msg, ?_⟩
            unfold parseDiceAux
            rw [hpf, hmsg]

/-- If every token of every argument coerces to a number, the argument
mapping succeeds and yields one die per argument. -/
theorem parseDiceAux_ok (i : Nat) (args : List String)
    (hgood : ∀ a ∈ args, ∀ tok ∈ splitCommas a, (jsNumber tok).isSome) :
    ∃ dice, parseDiceAux i args = Except.ok dice ∧ dice.length = args.length := by
  induction args generalizing i with
  | nil => exact ⟨[], rfl, rfl⟩
  | cons a rest ih =>
      rcases ih (i + 1) (fun b hb => hgood b (List.mem_cons_of_mem a hb)) with
        ⟨ds, hds, hlen⟩
      refine ⟨Dice.mk (((splitCommas a).map jsNumber).map (fun x => x.getD 0)) :: ds,
        ?_, ?_⟩
      · unfold parseDiceAux
        rw [parseFaces_eq_some_of_good a (hgood a (List.mem_cons_self a rest)), hds]
      · simp only [List.length_cons, hlen]

/-- Fidelity of the `Number()` model on the non-decimal productions of the
numeric literal grammar: exponent, hexadecimal and `Infinity` tokens are
accepted exactly as the builtin accepts them (none of them is `NaN`), a
sign before a radix-prefixed literal and a dangling exponent marker are
`NaN`, and a startup list whose tokens use these forms starts a game. -/
theorem jsNumber_extended_forms :
    jsNumber "1e3" = some (JsNum.finite 1000) ∧
    jsNumber "1.5e-2" = some (JsNum.finite (mkRat 3 200)) ∧
    jsNumber "1.e3" = some (JsNum.finite 1000) ∧
    jsNumber ".5" = some (JsNum.finite (mkRat 1 2)) ∧
    jsNumber "0x10" = some (JsNum.finite 16) ∧
    jsNumber "0b101" = some (JsNum.finite 5) ∧
    jsNumber "0o17" = some (JsNum.finite 15) ∧
    jsNumber "Infinity" = some JsNum.posInf ∧
    jsNumber "-Infinity" = some JsNum.negInf ∧
    jsNumber "-0x10" = none ∧
    jsNumber "0x" = none ∧
    jsNumber "1e" = none ∧
    jsNumber "." = none ∧
    jsNumber "1_0" = none ∧
    (runStartup ["1e3", "1", "2"]).isConfigError = false ∧
    runStartup ["1e3", "1", "2"] =
      StartupOutcome.gameStarted [Dice.mk [1000], Dice.mk [1], Dice.mk [2]] := by decide

/-- C8 counterexample: the startup input with the non-integer face `2.5`
and an empty face list starts a game instead of failing: the empty
specification coerces to the single face 0 and `2.5` is accepted as a
face, because the parser only rejects tokens that coerce to `NaN`. -/
theorem parseDice_accepts_malformed_cex :
    runStartup ["2.5", "", "3"] =
      StartupOutcome.gameStarted
        [Dice.mk [JsNum.finite (mkRat 5 2)], Dice.mk [0], Dice.mk [3]] ∧
    jsNumber "2.5" = some (JsNum.finite (mkRat 5 2)) ∧ splitCommas "" = [""] := by decide

/-- C8 as amended: startup fails fast with a descriptive error, and no
game starts, exactly when fewer than three specifications are given or
some face token coerces to `NaN`; an empty face token silently becomes the
face 0 and non-integer numeric faces are accepted, and with at least three
specifications all of whose tokens coerce to numbers a game is constructed
with one die per specification. -/
theorem parseDice_amended_spec (args args2 args3 : List String) (arg tok : String)
    (h3 : 3 ≤ args.length) (harg : arg ∈ args) (htok : tok ∈ splitCommas arg)
    (hnan : jsNumber tok = none) (h32 : 3 ≤ args2.length)
    (hgood : ∀ a ∈ args2, ∀ t ∈ splitCommas a, (jsNumber t).isSome)
    (hlen3 : args3.length < 3) :
    (runStartup args).isConfigError = true ∧
    (runStartup args2).isConfigError = false ∧
    (runStartup args2).startedDice.map List.length = some args2.length ∧
    (runStartup args3).isConfigError = true := by
  refine ⟨?_, ?_, ?_, ?_⟩
  · rcases parseDiceAux_error 0 args arg tok harg htok hnan with ⟨msg, hmsg⟩
    unfold runStartup DiceParser.parseDice
    rw [if_neg (Nat.not_lt.mpr h3), hmsg]
    rfl
  · rcases parseDiceAux_ok 0 args2 hgood with ⟨ds, hds, _⟩
    unfold runStartup DiceParser.parseDice
    rw [if_neg (Nat.not_lt.mpr h32), hds]
    rfl
  · rcases parseDiceAux_ok 0 args2 hgood with ⟨ds, hds, hlen⟩
    unfold runStartup DiceParser.parseDice
    rw [if_neg (Nat.not_lt.mpr h32), hds]
    simp [StartupOutcome.startedDice, hlen]
  · unfold runStartup DiceParser.parseDice
    rw [if_pos hlen3]
    rfl

/-- Witness for `parseDice_amended_spec`: the malformed token `x` inside
`1,2,x` fails startup, three clean specifications start a game with three
dice, and two specifications are too few. -/
theorem parseDice_amended_spec_witness :
    (runStartup ["1,2,x", "1", "2"]).isConfigError = true ∧
    (runStartup ["1", "2", "3"]).isConfigError = false ∧
    (runStartup ["1", "2", "3"]).startedDice.map List.length = some 3 ∧
    (runStartup ["1", "2"]).isConfigError = true :=
  parseDice_amended_spec ["1,2,x", "1", "2"] ["1", "2", "3"] ["1", "2"] "1,2,x" "x"
    (by decide) (by decide) (by decide) (by decide) (by decide) (by decide) (by decide)
